import Mathlib

/-!
Shallow embedding of the entitlement-gated admission core of the Hired
application (Angular + Supabase client).  The embedded operations are:

* `getUserPlan`               — ProfileService.getUserPlan (profile.service.ts)
* `countUserAttemptsThisMonth`— SimulationService.countUserAttemptsThisMonth
* `startSimulation`           — SimulationService.startSimulation
* `saveAttempt`               — SimulationService.saveAttempt
* `hasPlanFeature` / `PLAN_FEATURES` — plan.model.ts
* `planGuardEval`             — planGuard (plan.guard.ts)

The Supabase Record Store is modelled as explicit lists of rows inside a
`World`; each remote call is a pure function of that state, with Boolean
availability flags standing for the possibility that a given round trip
fails.  Timestamps are integers (milliseconds since the Unix epoch, as
produced by the JS Date the code relies on); the JS `Date.UTC(y, m, 1)`
builtin used to compute month boundaries is embedded below as `jsDateUTC`
on the proleptic Gregorian calendar, including JS month-index
normalization.
-/

deriving instance DecidableEq for Except

namespace Hired

/-- Status lifecycle of a simulation attempt (simulation-attempt.model.ts). -/
inductive AttemptStatus
  | in_progress
  | completed
  | timed_out
  | abandoned
deriving DecidableEq, Repr

/-- Persisted answer for one question within an attempt. -/
structure AttemptAnswer where
  question_id : String
  answer : String
deriving DecidableEq, Repr

/-- Row of the simulation_attempts table.  Timestamps are epoch milliseconds. -/
structure SimulationAttempt where
  id : String
  user_id : String
  simulation_id : String
  score : Option Nat
  status : AttemptStatus
  answers : List AttemptAnswer
  started_at : Int
  completed_at : Option Int
  duration_seconds : Option Nat
  created_at : Int
deriving DecidableEq, Repr

/-- Payload sent to saveAttempt when the candidate submits. -/
structure SaveAttemptPayload where
  simulation_id : String
  answers : List AttemptAnswer
  duration_seconds : Nat
deriving DecidableEq, Repr

/-- Row of the plans table (plan.model.ts).  `max_simulations_per_month = none`
means unlimited. -/
structure Plan where
  id : String
  name : String
  slug : String
  max_simulations_per_month : Option Nat
  features : List String
deriving DecidableEq, Repr

/-- Row of the profiles table (the fields this core reads). -/
structure ProfileRow where
  id : String
  plan_id : String
deriving DecidableEq, Repr

/-- Runtime shape of the payload returned by the getUserPlan join.  The
TypeScript type declares `plan` non-null, but the Supabase left join
returns `plan: null` for a dangling plan_id and the `as ProfileWithPlan`
cast performs no check, so the faithful model makes `plan` optional. -/
structure ProfileWithPlan where
  profile : ProfileRow
  plan : Option Plan
deriving DecidableEq, Repr

/-- Authenticated user as exposed by AuthService.getCurrentUser(). -/
structure User where
  id : String
deriving DecidableEq, Repr

/-- Errors surfaced by the simulation service: the dedicated
PlanLimitExceededError with its structured fields, and every other error as
a generic Error carrying only a message (score.service.ts lines 148-160). -/
inductive SimError
  | genericError (msg : String)
  | planLimitExceeded (used : Nat) (limit : Nat) (planName : String)
deriving DecidableEq, Repr

/-- State visible to one service call: the authenticated session, the Record
Store tables, the current UTC instant (epoch ms plus its UTC calendar year
and 0-based month index as getUTCFullYear/getUTCMonth return them),
availability of each kind of Record Store round trip, and the id the store
would assign to an inserted row. -/
structure World where
  user : Option User
  profiles : List ProfileRow
  plans : List Plan
  attempts : List SimulationAttempt
  nowMs : Int
  year : Int
  month : Int
  countAvailable : Bool
  insertAvailable : Bool
  updateAvailable : Bool
  nextId : String
deriving DecidableEq, Repr

/-- Embedding of the JS Date.UTC month-start computation: days from the civil
epoch 1970-01-01 to the first day of month `m` (1-based) of year `y` on the
proleptic Gregorian calendar (Hinnant days-from-civil algorithm, specialized
to day 1; all divisors are positive so Lean Int division is floor division,
matching the algorithm). -/
def daysFromCivil (y m : Int) : Int :=
  (if m ≤ 2 then y - 1 else y) / 400 * 146097 +
  ((if m ≤ 2 then y - 1 else y) % 400) * 365 +
  ((if m ≤ 2 then y - 1 else y) % 400) / 4 -
  ((if m ≤ 2 then y - 1 else y) % 400) / 100 +
  (153 * ((m + 9) % 12) + 2) / 5 - 719468

/-- Embedding of JS `Date.UTC(year, monthIndex, 1)` in epoch milliseconds:
JS normalizes an out-of-range 0-based month index into the year (so
`Date.UTC(y, 12, 1) = Date.UTC(y+1, 0, 1)`), then the civil day count is
converted to milliseconds. -/
def jsDateUTC (year monthIndex : Int) : Int :=
  daysFromCivil (year + monthIndex / 12) (monthIndex % 12 + 1) * 86400000

/-- Start of the current UTC calendar month, as computed at
score.service.ts line 358: `Date.UTC(now.getUTCFullYear(), now.getUTCMonth(), 1)`. -/
def monthStartMs (w : World) : Int := jsDateUTC w.year w.month

/-- Start of the next UTC calendar month, as computed at
score.service.ts line 360: `Date.UTC(now.getUTCFullYear(), now.getUTCMonth() + 1, 1)`. -/
def monthEndMs (w : World) : Int := jsDateUTC w.year (w.month + 1)

/-- The row filter of the count query (score.service.ts lines 363-371):
`eq(user_id) ∧ neq(status, abandoned) ∧ gte(created_at, monthStart) ∧ lt(created_at, monthEnd)`. -/
def countRowFilter (w : World) (uid : String) (a : SimulationAttempt) : Bool :=
  a.user_id == uid && !(a.status == AttemptStatus.abandoned) &&
  decide (monthStartMs w ≤ a.created_at) && decide (a.created_at < monthEndMs w)

/-- The count read over a given store snapshot: the exact row count when the
Record Store responds, degraded to 0 by the trailing catchError when the
round trip fails (score.service.ts lines 373-382). -/
def countOver (w : World) (uid : String) (store : List SimulationAttempt) : Nat :=
  if w.countAvailable then (store.filter (countRowFilter w uid)).length else 0

/-- SimulationService.countUserAttemptsThisMonth (score.service.ts lines
350-383).  The final catchError swallows every upstream error — including
the missing-user error — into 0. -/
def countUserAttemptsThisMonth (w : World) : Nat :=
  match w.user with
  | none => 0
  | some u => countOver w u.id w.attempts

/-- ProfileService.getUserPlan (profile.service.ts lines 107-144): resolve
the user, select the profile row by id with the joined plan, `.single()`.
A missing profile row makes `.single()` return an error; a missing plan row
makes the left join return `plan: null` with no error. -/
def getUserPlan (w : World) : Except String ProfileWithPlan :=
  match w.user with
  | none => Except.error "No authenticated user"
  | some u =>
    match w.profiles.find? (fun p => p.id == u.id) with
    | none => Except.error "JSON object requested, multiple (or no) rows returned"
    | some p =>
      Except.ok { profile := p, plan := w.plans.find? (fun pl => pl.id == p.plan_id) }

/-- The insert round trip of startSimulation (score.service.ts lines
238-255): insert the new row and return it, or propagate the store error
with the store unchanged. -/
def insertAttempt (w : World) (uid simulationId freshId : String)
    (store : List SimulationAttempt) :
    Except SimError SimulationAttempt × List SimulationAttempt :=
  if w.insertAvailable then
    let row : SimulationAttempt :=
      { id := freshId
        user_id := uid
        simulation_id := simulationId
        score := none
        status := AttemptStatus.in_progress
        answers := []
        started_at := w.nowMs
        completed_at := none
        duration_seconds := none
        created_at := w.nowMs }
    (Except.ok row, store ++ [row])
  else (Except.error (SimError.genericError "insert failed"), store)

/-- SimulationService.startSimulation (score.service.ts lines 210-269),
parameterized by the store snapshot the count round trip reads
(`countStore`) and the store the insert round trip lands on
(`insertStore`), because the two are separate client round trips.  Steps:
resolve user, load profile+plan, count this month, enforce
`limit !== null && usedCount >= limit`, then insert.  Reading
`plan.max_simulations_per_month` when the joined plan is null raises a JS
TypeError, modelled as a generic error. -/
def startSimulationWith (w : World) (simulationId freshId : String)
    (countStore insertStore : List SimulationAttempt) :
    Except SimError SimulationAttempt × List SimulationAttempt :=
  match w.user with
  | none => (Except.error (SimError.genericError "No authenticated user"), insertStore)
  | some user =>
    match getUserPlan w with
    | Except.error msg => (Except.error (SimError.genericError msg), insertStore)
    | Except.ok profileWithPlan =>
      match profileWithPlan.plan with
      | none =>
        (Except.error (SimError.genericError "TypeError: cannot read properties of null"),
         insertStore)
      | some plan =>
        let usedCount := countOver w user.id countStore
        match plan.max_simulations_per_month with
        | some limit =>
          if usedCount ≥ limit then
            (Except.error (SimError.planLimitExceeded usedCount limit plan.name), insertStore)
          else insertAttempt w user.id simulationId freshId insertStore
        | none => insertAttempt w user.id simulationId freshId insertStore

/-- One isolated startSimulation call: both round trips see the world store. -/
def startSimulation (w : World) (simulationId : String) :
    Except SimError SimulationAttempt × List SimulationAttempt :=
  startSimulationWith w simulationId w.nextId w.attempts w.attempts

/-- Two concurrent startSimulation calls under the interleaving in which
both count round trips resolve before either insert round trip commits
(schedulable because the client issues them as independent requests):
each call decides on the initial store, the inserts then serialize. -/
def raceCountFirst (w : World) (simulationId id1 id2 : String) :
    Except SimError SimulationAttempt × Except SimError SimulationAttempt ×
      List SimulationAttempt :=
  let r1 := startSimulationWith w simulationId id1 w.attempts w.attempts
  let r2 := startSimulationWith w simulationId id2 w.attempts r1.2
  (r1.1, r2.1, r2.2)

/-- Two startSimulation calls run strictly one after the other: the second
call counts over the store the first call left behind. -/
def sequentialTwice (w : World) (simulationId id1 id2 : String) :
    Except SimError SimulationAttempt × Except SimError SimulationAttempt ×
      List SimulationAttempt :=
  let r1 := startSimulationWith w simulationId id1 w.attempts w.attempts
  let r2 := startSimulationWith w simulationId id2 r1.2 r1.2
  (r1.1, r2.1, r2.2)

/-- SimulationService.saveAttempt (score.service.ts lines 278-304): update
the row matching `eq(id, attemptId)` with the payload answers, the duration,
status completed and `completed_at = now`, then `.select().single()`.  There
is no status precondition and no ownership filter — the caller identity is
never consulted.  `.single()` errors when the update matched no row. -/
def saveAttempt (w : World) (attemptId : String) (payload : SaveAttemptPayload) :
    Except String SimulationAttempt × List SimulationAttempt :=
  if w.updateAvailable then
    match w.attempts.find? (fun a => a.id == attemptId) with
    | none => (Except.error "JSON object requested, multiple (or no) rows returned", w.attempts)
    | some a =>
      let updated : SimulationAttempt :=
        { a with
          answers := payload.answers
          duration_seconds := some payload.duration_seconds
          status := AttemptStatus.completed
          completed_at := some w.nowMs }
      (Except.ok updated,
       w.attempts.map (fun b => if b.id == attemptId then updated else b))
  else (Except.error "update failed", w.attempts)

/-- Static tier-to-feature mapping PLAN_FEATURES (plan.model.ts lines 60-64),
modelled over runtime strings: a JS indexed access on the record yields
undefined for an unknown slug, guarded by the optional chain. -/
def PLAN_FEATURES (slug : String) : Option (List String) :=
  if slug == "free" then some []
  else if slug == "pro" then some ["certificates", "ranking"]
  else if slug == "enterprise" then
    some ["certificates", "ranking", "advanced_ai", "custom_tracks"]
  else none

/-- hasPlanFeature (plan.model.ts line 73):
`PLAN_FEATURES[slug]?.includes(feature) ?? false`. -/
def hasPlanFeature (slug feature : String) : Bool :=
  match PLAN_FEATURES slug with
  | some fs => fs.contains feature
  | none => false

/-- Outcome of a route guard: allow navigation, or a redirect UrlTree. -/
inductive GuardOutcome
  | allow
  | redirect (path : String)
deriving DecidableEq, Repr

/-- Decision core of planGuard (plan.guard.ts lines 44-69) applied to the
result of getUserPlan: `slug && hasPlanFeature(slug, required)` allows
(a JS empty-string slug is falsy), anything else redirects to /plans, and a
failed profile lookup redirects to /dashboard via catchError. -/
def planGuardEval (requiredFeature : String) (res : Except String ProfileWithPlan) :
    GuardOutcome :=
  match res with
  | Except.error _ => GuardOutcome.redirect "/dashboard"
  | Except.ok pwp =>
    match pwp.plan with
    | some plan =>
      if !(plan.slug == "") && hasPlanFeature plan.slug requiredFeature then
        GuardOutcome.allow
      else GuardOutcome.redirect "/plans"
    | none => GuardOutcome.redirect "/plans"

/-- The full guard run for a world: getUserPlan composed with the decision. -/
def planGuardRun (requiredFeature : String) (w : World) : GuardOutcome :=
  planGuardEval requiredFeature (getUserPlan w)

/-- Spec-side restatement of the counted statuses, following the spec words
"in_progress, completed, and timed_out all count": the count filter with the
status condition written as the positive list instead of the code form
`neq(status, abandoned)`.  Defined only to be compared with `countRowFilter`. -/
def specCountFilter (w : World) (uid : String) (a : SimulationAttempt) : Bool :=
  a.user_id == uid &&
  (a.status == AttemptStatus.in_progress || a.status == AttemptStatus.completed ||
    a.status == AttemptStatus.timed_out) &&
  decide (monthStartMs w ≤ a.created_at) && decide (a.created_at < monthEndMs w)

/-- Feature keys of the PlanFeature union type (plan.model.ts lines 50-54). -/
def knownFeatureKeys : List String :=
  ["certificates", "ranking", "advanced_ai", "custom_tracks"]

-- ─── Concrete fixtures used by witnesses and counterexamples ────────────────

/-- Free plan row with a monthly limit of 1 simulation. -/
def planFreeOne : Plan :=
  { id := "p-free", name := "Free", slug := "free",
    max_simulations_per_month := some 1, features := [] }

/-- Free plan row with a monthly limit of 3 simulations. -/
def planFreeThree : Plan :=
  { id := "p-free", name := "Free", slug := "free",
    max_simulations_per_month := some 3, features := [] }

/-- Pro plan row (the static feature map keys off the slug, not this row). -/
def planPro : Plan :=
  { id := "p-pro", name := "Pro", slug := "pro",
    max_simulations_per_month := none, features := ["certificates", "ranking"] }

/-- Epoch milliseconds of 2025-10-01T00:00:00Z, a concrete `now`. -/
def octMs : Int := 1759276800000

/-- Baseline healthy world: one authenticated user on a free plan with
limit 1, empty attempts store, clock in October 2025 (UTC). -/
def baseWorld : World :=
  { user := some { id := "u1" }
    profiles := [{ id := "u1", plan_id := "p-free" }]
    plans := [planFreeOne]
    attempts := []
    nowMs := octMs
    year := 2025
    month := 9
    countAvailable := true
    insertAvailable := true
    updateAvailable := true
    nextId := "a-new" }

end Hired

namespace Hired

-- ─── Helper lemmas ──────────────────────────────────────────────────────────

/-- Month starts are strictly increasing in the JS month index: the start of
any UTC calendar month is strictly before the start of the next one, for
every year and every (normalized) month index. -/
theorem jsDateUTC_lt_succ (y m : Int) : jsDateUTC y m < jsDateUTC y (m + 1) := by
  simp only [jsDateUTC, daysFromCivil]
  split_ifs <;> omega

/-- The Boolean status test `neq(status, abandoned)` coincides with the
positive disjunction over the three counting statuses. -/
theorem beq_abandoned_eq (st : AttemptStatus) :
    (!(st == AttemptStatus.abandoned)) =
      (st == AttemptStatus.in_progress || st == AttemptStatus.completed ||
        st == AttemptStatus.timed_out) := by
  cases st <;> rfl

/-- The program count equals the count over the world store once the user is
fixed. -/
theorem countUserAttemptsThisMonth_eq (w : World) (u : User) (hu : w.user = some u) :
    countUserAttemptsThisMonth w = countOver w u.id w.attempts := by
  simp [countUserAttemptsThisMonth, hu]

/-- A successful getUserPlan implies an authenticated user. -/
theorem getUserPlan_ok_user (w : World) (pwp : ProfileWithPlan)
    (h : getUserPlan w = Except.ok pwp) : ∃ u, w.user = some u := by
  unfold getUserPlan at h
  cases hu : w.user with
  | none => rw [hu] at h; exact absurd h (by simp)
  | some u => exact ⟨u, rfl⟩

/-- Once the user, the profile and the plan are fixed, startSimulation is the
quota comparison followed by the insert. -/
theorem startSimulation_reduce (w : World) (u : User) (pwp : ProfileWithPlan)
    (plan : Plan) (sid : String)
    (hu : w.user = some u) (hp : getUserPlan w = Except.ok pwp)
    (hpl : pwp.plan = some plan) :
    startSimulation w sid =
      (match plan.max_simulations_per_month with
       | some limit =>
         if countUserAttemptsThisMonth w ≥ limit then
           (Except.error (SimError.planLimitExceeded (countUserAttemptsThisMonth w)
              limit plan.name), w.attempts)
         else insertAttempt w u.id sid w.nextId w.attempts
       | none => insertAttempt w u.id sid w.nextId w.attempts) := by
  have hc := countUserAttemptsThisMonth_eq w u hu
  unfold startSimulation startSimulationWith
  simp only [hu, hp, hpl, hc]

-- ─── C1 ─────────────────────────────────────────────────────────────────────

/-- C1: for an authenticated identity whose plan resolves, startSimulation
with an unlimited plan (max_simulations_per_month = none) always admits; with
a finite limit it admits iff the period attempt count is strictly below the
limit, and it fails with PlanLimitExceededError carrying (used, limit,
planName) iff used ≥ limit. -/
theorem startSimulation_quota_rule (w : World) (u : User) (pwp : ProfileWithPlan)
    (plan : Plan) (sid : String)
    (hu : w.user = some u) (hp : getUserPlan w = Except.ok pwp)
    (hpl : pwp.plan = some plan)
    (hins : w.insertAvailable = true) (hcnt : w.countAvailable = true) :
    (plan.max_simulations_per_month = none →
        ((startSimulation w sid).1).isOk = true) ∧
    (∀ limit, plan.max_simulations_per_month = some limit →
      ((((startSimulation w sid).1).isOk = true) ↔
          countUserAttemptsThisMonth w < limit) ∧
      (((startSimulation w sid).1 =
          Except.error (SimError.planLimitExceeded
            (countUserAttemptsThisMonth w) limit plan.name)) ↔
        limit ≤ countUserAttemptsThisMonth w)) := by
  constructor
  · intro hnone
    simp only [startSimulation_reduce w u pwp plan sid hu hp hpl, hnone]
    simp [insertAttempt, hins, Except.isOk, Except.toBool]
  · intro limit hlim
    simp only [startSimulation_reduce w u pwp plan sid hu hp hpl, hlim]
    by_cases hge : countUserAttemptsThisMonth w ≥ limit
    · rw [if_pos hge]
      simp [Except.isOk, Except.toBool]
      omega
    · rw [if_neg hge]
      simp [insertAttempt, hins, Except.isOk, Except.toBool]
      omega

/-- C1 witness: at the baseline world (limit 1, zero attempts used) the
quota rule instantiates: admission succeeds and is not a quota rejection. -/
theorem startSimulation_quota_rule_witness :
    (((startSimulation baseWorld "sim-1").1).isOk = true ↔
        countUserAttemptsThisMonth baseWorld < 1) ∧
    (((startSimulation baseWorld "sim-1").1 =
        Except.error (SimError.planLimitExceeded
          (countUserAttemptsThisMonth baseWorld) 1 planFreeOne.name)) ↔
      1 ≤ countUserAttemptsThisMonth baseWorld) :=
  (startSimulation_quota_rule baseWorld { id := "u1" }
      { profile := { id := "u1", plan_id := "p-free" }, plan := some planFreeOne }
      planFreeOne "sim-1" rfl rfl rfl rfl rfl).2 1 rfl

-- ─── C2 ─────────────────────────────────────────────────────────────────────

/-- C2: the claim requires exactly one success out of two concurrent admits
at used = limit - 1, backed by an atomic server-side count-and-insert.  The
code instead issues the count and the insert as two separate client round
trips (score.service.ts lines 221 and 238), so under the interleaving in
which both counts resolve before either insert commits, both calls at
used = 0 = limit - 1 (limit 1) succeed and two rows are created; run
strictly in sequence, the second call is correctly rejected with
QuotaExceeded, which shows the over-admission is caused purely by the
non-atomic interleaving. -/
theorem startSimulation_race_overadmits :
    (((raceCountFirst baseWorld "sim-1" "a1" "a2").1).isOk = true ∧
     ((raceCountFirst baseWorld "sim-1" "a1" "a2").2.1).isOk = true ∧
     (raceCountFirst baseWorld "sim-1" "a1" "a2").2.2.length = 2) ∧
    (sequentialTwice baseWorld "sim-1" "a1" "a2").2.1 =
      Except.error (SimError.planLimitExceeded 1 1 "Free") := by
  decide

-- ─── C3 ─────────────────────────────────────────────────────────────────────

/-- Terminal attempt owned by a different identity than the session user. -/
def c3Attempt : SimulationAttempt :=
  { id := "a1", user_id := "someone-else", simulation_id := "sim-1",
    score := some 80, status := AttemptStatus.completed,
    answers := [{ question_id := "q1", answer := "old" }],
    started_at := 100, completed_at := some 200, duration_seconds := some 60,
    created_at := 100 }

/-- World whose store holds only the foreign, already-completed attempt. -/
def c3World : World := { baseWorld with attempts := [c3Attempt] }

/-- Submission payload that overwrites the stored answers. -/
def c3Payload : SaveAttemptPayload :=
  { simulation_id := "sim-1",
    answers := [{ question_id := "q1", answer := "new" }],
    duration_seconds := 42 }

/-- C3 counterexample: saveAttempt called on an attempt that is already
terminal (completed) and owned by a different identity does not fail with
InvalidTransition — it succeeds and rewrites the row (answers, completed_at
and duration included), so the claim is false on the code. -/
theorem saveAttempt_no_guard_cex :
    ((saveAttempt c3World "a1" c3Payload).1).isOk = true ∧
    (saveAttempt c3World "a1" c3Payload).2 ≠ c3World.attempts := by
  decide

/-- C3 amended: saveAttempt is an unconditional update by attempt id.  For
any stored attempt — whatever its status and whoever owns it — it succeeds
and returns the row rewritten with the payload answers and duration, status
completed and completed_at = now; no InvalidTransition guard exists. -/
theorem saveAttempt_unconditional_update (w : World) (attemptId : String)
    (p : SaveAttemptPayload) (a : SimulationAttempt)
    (hfind : w.attempts.find? (fun b => b.id == attemptId) = some a)
    (hupd : w.updateAvailable = true) :
    (saveAttempt w attemptId p).1 =
      Except.ok { a with answers := p.answers,
                         duration_seconds := some p.duration_seconds,
                         status := AttemptStatus.completed,
                         completed_at := some w.nowMs } := by
  simp [saveAttempt, hupd, hfind]

/-- C3 amended witness: the unconditional update instantiated on the
terminal foreign-owned attempt. -/
theorem saveAttempt_unconditional_update_witness :
    (saveAttempt c3World "a1" c3Payload).1 =
      Except.ok { c3Attempt with
                    answers := c3Payload.answers,
                    duration_seconds := some c3Payload.duration_seconds,
                    status := AttemptStatus.completed,
                    completed_at := some c3World.nowMs } :=
  saveAttempt_unconditional_update c3World "a1" c3Payload c3Attempt (by decide) rfl

-- ─── C4 ─────────────────────────────────────────────────────────────────────

/-- In-period attempt of the baseline user with the given id and status. -/
def c4Attempt (i : String) (st : AttemptStatus) : SimulationAttempt :=
  { id := i, user_id := "u1", simulation_id := "sim-1",
    score := none, status := st, answers := [],
    started_at := octMs, completed_at := none, duration_seconds := none,
    created_at := octMs }

/-- World with 3 completed plus 2 abandoned in-period attempts and a free
plan whose monthly limit is 3. -/
def c4World : World :=
  { baseWorld with
    plans := [planFreeThree]
    attempts := [c4Attempt "a1" AttemptStatus.completed,
                 c4Attempt "a2" AttemptStatus.completed,
                 c4Attempt "a3" AttemptStatus.completed,
                 c4Attempt "a4" AttemptStatus.abandoned,
                 c4Attempt "a5" AttemptStatus.abandoned] }

/-- C4: the period count excludes abandoned attempts and counts exactly the
in_progress, completed and timed_out ones — the code filter
`neq(status, abandoned)` coincides with the spec positive status list — and
in the concrete 3-completed + 2-abandoned world with limit 3,
startSimulation rejects with used = 3. -/
theorem countUserAttemptsThisMonth_excludes_abandoned :
    (∀ (w : World) (u : User), w.user = some u → w.countAvailable = true →
      countUserAttemptsThisMonth w =
        (w.attempts.filter (specCountFilter w u.id)).length) ∧
    (startSimulation c4World "sim-1").1 =
      Except.error (SimError.planLimitExceeded 3 3 "Free") := by
  constructor
  · intro w u hu hc
    rw [countUserAttemptsThisMonth_eq w u hu, countOver, if_pos (by simp [hc])]
    refine congrArg List.length (List.filter_congr ?_)
    intro a _
    simp only [countRowFilter, specCountFilter, beq_abandoned_eq]
  · decide

/-- C4 witness: the filter characterization instantiated at the concrete
world: the count is 3, not 5 — the two abandoned attempts do not count. -/
theorem countUserAttemptsThisMonth_excludes_abandoned_witness :
    countUserAttemptsThisMonth c4World =
      (c4World.attempts.filter (specCountFilter c4World "u1")).length ∧
    countUserAttemptsThisMonth c4World = 3 :=
  ⟨countUserAttemptsThisMonth_excludes_abandoned.1 c4World { id := "u1" } rfl rfl,
   by decide⟩

-- ─── C5 ─────────────────────────────────────────────────────────────────────

/-- C5: the accounting period is the half-open UTC calendar month
[monthStart, nextMonthStart): a lone non-abandoned attempt of the user
created exactly at monthStart is counted in that period, while one created
exactly at nextMonthStart is not counted there but is counted in the
following period (same clock advanced one month index, which JS Date.UTC
normalizes across year ends). -/
theorem countUserAttemptsThisMonth_boundary (y m : Int) (w : World) (u : User)
    (a : SimulationAttempt)
    (hu : w.user = some u) (hc : w.countAvailable = true)
    (hy : w.year = y) (hm : w.month = m)
    (hatt : w.attempts = [a]) (hua : a.user_id = u.id)
    (hst : a.status ≠ AttemptStatus.abandoned) :
    (a.created_at = jsDateUTC y m → countUserAttemptsThisMonth w = 1) ∧
    (a.created_at = jsDateUTC y (m + 1) →
      countUserAttemptsThisMonth w = 0 ∧
      countUserAttemptsThisMonth { w with month := m + 1 } = 1) := by
  have hmono : jsDateUTC y m < jsDateUTC y (m + 1) := jsDateUTC_lt_succ y m
  have hmono2 : jsDateUTC y (m + 1) < jsDateUTC y (m + 1 + 1) :=
    jsDateUTC_lt_succ y (m + 1)
  refine ⟨?_, ?_⟩
  · intro hcr
    rw [countUserAttemptsThisMonth_eq w u hu, countOver, if_pos (by simp [hc]), hatt]
    simp [countRowFilter, monthStartMs, monthEndMs, hy, hm, hua, hcr, hst,
      le_of_lt hmono, hmono]
  · intro hcr
    constructor
    · rw [countUserAttemptsThisMonth_eq w u hu, countOver, if_pos (by simp [hc]), hatt]
      simp [countRowFilter, monthStartMs, monthEndMs, hy, hm, hcr]
    · rw [countUserAttemptsThisMonth_eq { w with month := m + 1 } u (by simp [hu]),
        countOver, if_pos (by simp [hc])]
      simp only [hatt]
      simp [countRowFilter, monthStartMs, monthEndMs, hy, hm, hua, hcr, hst, hmono2]

/-- World whose single stored attempt was created exactly at the start of
the current UTC month (October 2025). -/
def c5WorldIn : World :=
  { baseWorld with attempts := [c4Attempt "a1" AttemptStatus.completed] }

/-- World whose single stored attempt was created exactly at the start of
the next UTC month (November 2025) while the clock still shows October. -/
def c5WorldOut : World :=
  { baseWorld with
    attempts := [{ c4Attempt "a1" AttemptStatus.completed with
                     created_at := jsDateUTC 2025 10 }] }

/-- C5 witness: at October 2025, an attempt created exactly at the October
month start counts as 1; one created exactly at the November month start
counts as 0 in October and as 1 once the clock month index advances. -/
theorem countUserAttemptsThisMonth_boundary_witness :
    countUserAttemptsThisMonth c5WorldIn = 1 ∧
    (countUserAttemptsThisMonth c5WorldOut = 0 ∧
     countUserAttemptsThisMonth { c5WorldOut with month := 9 + 1 } = 1) :=
  ⟨(countUserAttemptsThisMonth_boundary 2025 9 c5WorldIn { id := "u1" }
      (c4Attempt "a1" AttemptStatus.completed) rfl rfl rfl rfl rfl rfl
      (by decide)).1 (by decide),
   (countUserAttemptsThisMonth_boundary 2025 9 c5WorldOut { id := "u1" }
      { c4Attempt "a1" AttemptStatus.completed with created_at := jsDateUTC 2025 10 }
      rfl rfl rfl rfl rfl rfl (by decide)).2 rfl⟩

-- ─── C6 ─────────────────────────────────────────────────────────────────────

/-- C6: Record Store failure on the count read degrades the count to 0
(never an error), while Record Store failure on the attempt insert makes
startSimulation fail — propagated to the caller, with the attempts store
unchanged — whenever the call reaches the insert (plan resolved, quota gate
passed). -/
theorem storeFailure_count_degrades_insert_propagates (w : World) (u : User)
    (pwp : ProfileWithPlan) (plan : Plan) (sid : String)
    (hu : w.user = some u) :
    (w.countAvailable = false → countUserAttemptsThisMonth w = 0) ∧
    (w.insertAvailable = false →
      getUserPlan w = Except.ok pwp → pwp.plan = some plan →
      (∀ limit, plan.max_simulations_per_month = some limit →
        countUserAttemptsThisMonth w < limit) →
      (startSimulation w sid).1 =
        Except.error (SimError.genericError "insert failed") ∧
      (startSimulation w sid).2 = w.attempts) := by
  constructor
  · intro hcf
    rw [countUserAttemptsThisMonth_eq w u hu, countOver, hcf]
    simp
  · intro hif hp hpl hq
    rw [startSimulation_reduce w u pwp plan sid hu hp hpl]
    cases hlim : plan.max_simulations_per_month with
    | none => simp [insertAttempt, hif]
    | some limit =>
      have := hq limit hlim
      simp only []
      rw [if_neg (by omega)]
      simp [insertAttempt, hif]

/-- World where both the count read and the insert round trip fail. -/
def c6World : World :=
  { baseWorld with countAvailable := false, insertAvailable := false }

/-- C6 witness: in the doubly-degraded world the count returns 0 (which is
below the limit 1), and startSimulation surfaces the insert failure with the
store untouched. -/
theorem storeFailure_witness :
    countUserAttemptsThisMonth c6World = 0 ∧
    ((startSimulation c6World "sim-1").1 =
        Except.error (SimError.genericError "insert failed") ∧
     (startSimulation c6World "sim-1").2 = c6World.attempts) :=
  ⟨(storeFailure_count_degrades_insert_propagates c6World { id := "u1" }
      { profile := { id := "u1", plan_id := "p-free" }, plan := some planFreeOne }
      planFreeOne "sim-1" rfl).1 rfl,
   (storeFailure_count_degrades_insert_propagates c6World { id := "u1" }
      { profile := { id := "u1", plan_id := "p-free" }, plan := some planFreeOne }
      planFreeOne "sim-1" rfl).2 rfl rfl rfl (by decide)⟩

-- ─── C7 ─────────────────────────────────────────────────────────────────────

/-- World whose profile points at a plan id that exists in no plan row. -/
def c7World : World :=
  { baseWorld with
    profiles := [{ id := "u1", plan_id := "p-dangling" }]
    plans := [] }

/-- C7 counterexample: with a dangling plan reference, getUserPlan does not
fail with PlanNotFound (or any error): the left join returns the profile
with a null plan and the call succeeds, so the claim is false on the code. -/
theorem getUserPlan_dangling_plan_cex :
    getUserPlan c7World =
      Except.ok { profile := { id := "u1", plan_id := "p-dangling" }, plan := none } := by
  decide

/-- C7 amended: getUserPlan fails when no identity is supplied and when the
profile row is missing (the single-row read errors), but when the joined
plan row is missing it succeeds, returning the profile with a null plan —
it neither raises PlanNotFound nor substitutes a default plan. -/
theorem getUserPlan_contract (w : World) (u : User) (p : ProfileRow) :
    (w.user = none → getUserPlan w = Except.error "No authenticated user") ∧
    (w.user = some u → w.profiles.find? (fun q => q.id == u.id) = none →
      getUserPlan w =
        Except.error "JSON object requested, multiple (or no) rows returned") ∧
    (w.user = some u → w.profiles.find? (fun q => q.id == u.id) = some p →
      w.plans.find? (fun pl => pl.id == p.plan_id) = none →
      getUserPlan w = Except.ok { profile := p, plan := none }) := by
  refine ⟨?_, ?_, ?_⟩
  · intro hu
    simp [getUserPlan, hu]
  · intro hu hpr
    simp [getUserPlan, hu, hpr]
  · intro hu hpr hpl
    simp [getUserPlan, hu, hpr, hpl]

/-- World with an authenticated user but no profile row. -/
def c7NoProfileWorld : World := { baseWorld with profiles := [] }

/-- World with no authenticated user. -/
def c7NoUserWorld : World := { baseWorld with user := none }

/-- C7 amended witness: the three contract branches instantiated at concrete
worlds. -/
theorem getUserPlan_contract_witness :
    getUserPlan c7NoUserWorld = Except.error "No authenticated user" ∧
    getUserPlan c7NoProfileWorld =
      Except.error "JSON object requested, multiple (or no) rows returned" ∧
    getUserPlan c7World =
      Except.ok { profile := { id := "u1", plan_id := "p-dangling" }, plan := none } :=
  ⟨(getUserPlan_contract c7NoUserWorld { id := "u1" }
      { id := "u1", plan_id := "p-free" }).1 rfl,
   (getUserPlan_contract c7NoProfileWorld { id := "u1" }
      { id := "u1", plan_id := "p-free" }).2.1 rfl rfl,
   (getUserPlan_contract c7World { id := "u1" }
      { id := "u1", plan_id := "p-dangling" }).2.2 rfl rfl rfl⟩

-- ─── C8 ─────────────────────────────────────────────────────────────────────

/-- Any row returned by a successful insert has the fresh-attempt shape. -/
theorem insertAttempt_ok_shape (w : World) (uid sid fid : String)
    (store : List SimulationAttempt) (a : SimulationAttempt)
    (h : (insertAttempt w uid sid fid store).1 = Except.ok a) :
    a.status = AttemptStatus.in_progress ∧ a.started_at = w.nowMs ∧
      a.answers = [] := by
  unfold insertAttempt at h
  by_cases hi : w.insertAvailable
  · rw [if_pos hi] at h
    simp only [Except.ok.injEq] at h
    subst h
    exact ⟨rfl, rfl, rfl⟩
  · rw [if_neg hi] at h
    exact absurd h (by simp)

/-- C8: whenever startSimulation succeeds, the attempt it returns is
in_progress, has startedAt equal to the creation time now, and has an empty
answers sequence. -/
theorem startSimulation_success_shape (w : World) (sid : String)
    (a : SimulationAttempt)
    (hok : (startSimulation w sid).1 = Except.ok a) :
    a.status = AttemptStatus.in_progress ∧ a.started_at = w.nowMs ∧
      a.answers = [] := by
  unfold startSimulation startSimulationWith at hok
  cases hu : w.user with
  | none => rw [hu] at hok; exact absurd hok (by simp)
  | some u =>
    rw [hu] at hok
    simp only [] at hok
    cases hp : getUserPlan w with
    | error msg => rw [hp] at hok; exact absurd hok (by simp)
    | ok pwp =>
      rw [hp] at hok
      simp only [] at hok
      cases hpl : pwp.plan with
      | none => rw [hpl] at hok; exact absurd hok (by simp)
      | some plan =>
        rw [hpl] at hok
        simp only [] at hok
        cases hlim : plan.max_simulations_per_month with
        | none =>
          rw [hlim] at hok
          exact insertAttempt_ok_shape w u.id sid w.nextId w.attempts a hok
        | some limit =>
          rw [hlim] at hok
          simp only [] at hok
          by_cases hge : countOver w u.id w.attempts ≥ limit
          · rw [if_pos hge] at hok; exact absurd hok (by simp)
          · rw [if_neg hge] at hok
            exact insertAttempt_ok_shape w u.id sid w.nextId w.attempts a hok

/-- The concrete row the baseline world insert returns. -/
def c8Row : SimulationAttempt :=
  { id := "a-new", user_id := "u1", simulation_id := "sim-1",
    score := none, status := AttemptStatus.in_progress, answers := [],
    started_at := octMs, completed_at := none, duration_seconds := none,
    created_at := octMs }

/-- C8 witness: the baseline admission succeeds with exactly that shape. -/
theorem startSimulation_success_shape_witness :
    c8Row.status = AttemptStatus.in_progress ∧ c8Row.started_at = baseWorld.nowMs ∧
      c8Row.answers = [] :=
  startSimulation_success_shape baseWorld "sim-1" c8Row (by decide)

-- ─── C9 ─────────────────────────────────────────────────────────────────────

/-- World whose user is on the pro plan. -/
def c9ProWorld : World :=
  { baseWorld with
    profiles := [{ id := "u1", plan_id := "p-pro" }]
    plans := [planPro] }

/-- C9: the static feature lookup is total on the three known plan slugs
(each maps to a defined, possibly empty, feature set), hasPlanFeature
returns false — it cannot error — for any feature key outside the known
ones, and the feature gate denies (redirects to /plans) the certificates
feature on the free plan while allowing it on the pro plan. -/
theorem hasPlanFeature_total_and_gate :
    (PLAN_FEATURES "free" = some [] ∧
     PLAN_FEATURES "pro" = some ["certificates", "ranking"] ∧
     PLAN_FEATURES "enterprise" =
       some ["certificates", "ranking", "advanced_ai", "custom_tracks"]) ∧
    (∀ slug feature, feature ∉ knownFeatureKeys →
      hasPlanFeature slug feature = false) ∧
    planGuardRun "certificates" baseWorld = GuardOutcome.redirect "/plans" ∧
    planGuardRun "certificates" c9ProWorld = GuardOutcome.allow := by
  refine ⟨⟨rfl, rfl, rfl⟩, ?_, by decide, by decide⟩
  intro slug feature h
  simp [knownFeatureKeys] at h
  unfold hasPlanFeature PLAN_FEATURES
  split_ifs <;> simp [h.1, h.2.1, h.2.2.1, h.2.2.2]

/-- C9 witness: the unknown-key branch instantiated: an unknown feature key
on a known slug yields false rather than an error. -/
theorem hasPlanFeature_unknown_key_witness :
    hasPlanFeature "free" "holographic_interviews" = false :=
  hasPlanFeature_total_and_gate.2.1 "free" "holographic_interviews" (by decide)

-- ─── C10 ────────────────────────────────────────────────────────────────────

/-- C10: on every pre-creation failure path of startSimulation — caller
unauthenticated, plan resolution failed, or quota gate rejected — the call
fails and the attempts store is returned unchanged: the insert is never
issued. -/
theorem startSimulation_preCreation_no_insert (w : World) (sid : String)
    (h : w.user = none ∨
         (∃ msg, getUserPlan w = Except.error msg) ∨
         (∃ pwp plan limit, getUserPlan w = Except.ok pwp ∧ pwp.plan = some plan ∧
            plan.max_simulations_per_month = some limit ∧
            limit ≤ countUserAttemptsThisMonth w)) :
    ((startSimulation w sid).1).isOk = false ∧
    (startSimulation w sid).2 = w.attempts := by
  rcases h with hu | ⟨msg, hp⟩ | ⟨pwp, plan, limit, hp, hpl, hlim, hge⟩
  · unfold startSimulation startSimulationWith
    rw [hu]
    exact ⟨rfl, rfl⟩
  · cases hu : w.user with
    | none =>
      unfold startSimulation startSimulationWith
      rw [hu]
      exact ⟨rfl, rfl⟩
    | some u =>
      unfold startSimulation startSimulationWith
      rw [hu]
      simp only []
      rw [hp]
      exact ⟨rfl, rfl⟩
  · obtain ⟨u, hu⟩ := getUserPlan_ok_user w pwp hp
    rw [startSimulation_reduce w u pwp plan sid hu hp hpl, hlim]
    simp only []
    rw [if_pos (by omega)]
    exact ⟨rfl, rfl⟩

/-- C10 witness: with no authenticated user the call fails and the store is
untouched. -/
theorem startSimulation_preCreation_no_insert_witness :
    ((startSimulation c7NoUserWorld "sim-1").1).isOk = false ∧
    (startSimulation c7NoUserWorld "sim-1").2 = c7NoUserWorld.attempts :=
  startSimulation_preCreation_no_insert c7NoUserWorld "sim-1" (Or.inl rfl)

end Hired
